import Mathlib

/-!
Verification of the session-bootstrap and credential-cache core of the
Conduit end-to-end test suite.

The embedding below follows the TypeScript sources:
  * `src/utils/testDataGenerator.ts` (second document: `SessionManager`),
  * `src/fixtures/authFixture.ts` (the `testCredentials` and
    `authenticatedPage` fixtures, and `LoginPage.isLoggedIn`),
  * `src/utils/constants.ts` (`TEST_CREDENTIALS`).

Effectful steps (navigations, element waits, network logins, signup form
submissions) are suspension points whose outcomes the code branches on.
Each model takes an environment record of booleans supplying those
outcomes, threads the filesystem cache state explicitly, and records an
event trace (logged-in checks, snapshot writes, login calls, context and
page lifecycle) so that ordering properties can be stated.
-/

namespace Conduit

/-- `UserCredentials` from `src/utils/apiHelper.ts`: an email/password pair. -/
structure UserCredentials where
  email : String
  password : String
deriving DecidableEq, Repr

/-- Observable events of a bootstrap run, in program order. -/
inductive Event where
  /-- A `LoginPage.isLoggedIn()` call returning `result`. -/
  | checkLoggedIn (result : Bool)
  /-- `context.storageState({ path: STORAGE_STATE_PATH })`: the snapshot is
  written to the cache file. -/
  | writeSnapshot
  /-- `apiHelper.login(credentials)`; `ok` is false when the call throws. -/
  | apiLogin (ok : Bool)
  /-- `loginPage.login(email, password)`; `ok` is false when the call throws. -/
  | uiLogin (ok : Bool)
  /-- `context.newPage()` yielding page `id`. -/
  | openPage (id : Nat)
  /-- `page.close()` of page `id`. -/
  | closePage (id : Nat)
  /-- `browser.newContext()` yielding context `id`. -/
  | openContext (id : Nat)
  /-- `context.close()` of context `id`. -/
  | closeContext (id : Nat)
  /-- An invocation of `SessionManager.createAuthenticatedSessionViaAPI`. -/
  | establishAPI (ok : Bool)
  /-- An invocation of `SessionManager.createAuthenticatedSession`. -/
  | establishUI (ok : Bool)
  /-- `SessionManager.deleteStorageState()`. -/
  | deleteSnapshot
  /-- An invocation of `bootstrapStorageState`. -/
  | bootstrapCall (ok : Bool)
  /-- One signup form submission attempt (`signupPage.signUp`). -/
  | signup (ok : Bool)
  /-- `page.waitForTimeout(ms)` backoff between signup attempts. -/
  | backoff (ms : Nat)
  /-- `SessionManager.saveCredentials` writing the credentials file. -/
  | saveCreds (email password : String)
deriving DecidableEq, Repr

/-! ## Credential cache file (`SessionManager.saveCredentials` /
`SessionManager.getStoredCredentials`)

The credentials file `.auth/credentials.json` can be absent, unreadable
(`fs.readFileSync` throws), hold malformed JSON (`JSON.parse` throws), or
hold a JSON object in which the `email` and `password` fields are each
present or missing. -/

/-- The possible states of the credentials cache file. -/
inductive CredFile where
  | absent
  | unreadable
  | malformed
  | record (emailField passwordField : Option String)
deriving DecidableEq, Repr

/-- `SessionManager.saveCredentials`: writes
`JSON.stringify(credentials, null, 2)`, i.e. a JSON object with both
fields present and exactly the given values. -/
def saveCredentials (c : UserCredentials) : CredFile :=
  .record (some c.email) (some c.password)

/-- JavaScript truthiness of an optional string field: a present,
non-empty string. (`undefined` and `""` are both falsy.) -/
def truthyField : Option String → Bool
  | none => false
  | some s => s ≠ ""

/-- `SessionManager.getStoredCredentials`: returns `null` when the file is
absent (`fs.existsSync` false), when reading or parsing throws (the
`try`/`catch` logs a warning and falls through to `return null`), or when
`parsed.email && parsed.password` is falsy; otherwise returns the stored
pair. The source's exceptions are all caught, so the model is total. -/
def getStoredCredentials : CredFile → Option UserCredentials
  | .absent => none
  | .unreadable => none
  | .malformed => none
  | .record emailField passwordField =>
    if truthyField emailField && truthyField passwordField then
      some ⟨emailField.getD "", passwordField.getD ""⟩
    else
      none

/-! ## The logged-in validator (`LoginPage.isLoggedIn`) -/

/-- `LoginPage.isLoggedIn` from `src/pages/LoginPage.ts`: given the four
visibility results (each `isVisible(...).catch(() => false)`, so each is a
plain boolean), returns
`(hasProfile || hasSettings || hasNewArticle) && !hasSignIn`. -/
def isLoggedIn (hasProfile hasSettings hasNewArticle hasSignIn : Bool) : Bool :=
  (hasProfile || hasSettings || hasNewArticle) && !hasSignIn

/-! ## Trace predicates -/

/-- Auxiliary scan: every `writeSnapshot` event must be immediately
preceded by a `checkLoggedIn true` event. -/
def writeGuardedAux : Option Event → List Event → Bool
  | _, [] => true
  | prev, ev :: rest =>
    (if ev = Event.writeSnapshot then decide (prev = some (Event.checkLoggedIn true)) else true)
      && writeGuardedAux (some ev) rest

/-- A trace is write-guarded when each snapshot write immediately follows
a passing logged-in check. -/
def writeGuarded (t : List Event) : Bool :=
  writeGuardedAux none t

/-- Number of `checkLoggedIn` events in a trace. -/
def countChecks : List Event → Nat
  | [] => 0
  | Event.checkLoggedIn _ :: rest => countChecks rest + 1
  | _ :: rest => countChecks rest

/-- Number of `bootstrapCall` events in a trace. -/
def countBootstraps : List Event → Nat
  | [] => 0
  | Event.bootstrapCall _ :: rest => countBootstraps rest + 1
  | _ :: rest => countBootstraps rest

/-- Number of `establishUI` events in a trace. -/
def countEstablishUI : List Event → Nat
  | [] => 0
  | Event.establishUI _ :: rest => countEstablishUI rest + 1
  | _ :: rest => countEstablishUI rest

/-- Number of `establishAPI` events in a trace. -/
def countEstablishAPI : List Event → Nat
  | [] => 0
  | Event.establishAPI _ :: rest => countEstablishAPI rest + 1
  | _ :: rest => countEstablishAPI rest

/-- Number of `signup` events in a trace. -/
def countSignups : List Event → Nat
  | [] => 0
  | Event.signup _ :: rest => countSignups rest + 1
  | _ :: rest => countSignups rest

/-- Run the trace against a stack of currently open contexts; `true` iff
every opened context is closed by the end of the trace. -/
def ctxBalanceAux : List Nat → List Event → Bool
  | openIds, [] => openIds.isEmpty
  | openIds, Event.openContext n :: rest => ctxBalanceAux (n :: openIds) rest
  | openIds, Event.closeContext n :: rest => ctxBalanceAux (openIds.erase n) rest
  | openIds, _ :: rest => ctxBalanceAux openIds rest

/-- Every browser context opened in the trace is closed before it ends. -/
def contextsClosed (t : List Event) : Bool :=
  ctxBalanceAux [] t

/-- Run the trace against a stack of currently open pages. -/
def pageBalanceAux : List Nat → List Event → Bool
  | openIds, [] => openIds.isEmpty
  | openIds, Event.openPage n :: rest => pageBalanceAux (n :: openIds) rest
  | openIds, Event.closePage n :: rest => pageBalanceAux (openIds.erase n) rest
  | openIds, _ :: rest => pageBalanceAux openIds rest

/-- Every page opened in the trace is closed before it ends. -/
def pagesClosed (t : List Event) : Bool :=
  pageBalanceAux [] t

/-! ## UI-driven establisher (`SessionManager.createAuthenticatedSession`)

One page (id 0) is opened on the given context; the whole body runs in a
`try`/`finally` that closes the page on every path. The environment gives
the outcome of each suspension point, in source order. -/

/-- Outcomes of the suspension points of `createAuthenticatedSession`,
in the order the source reaches them. -/
structure UIEnv where
  /-- The first `page.goto` to the home page throws (timeout). -/
  gotoHomeThrows : Bool
  /-- First `loginPage.isLoggedIn()` result (already authenticated?). -/
  alreadyLoggedIn : Bool
  /-- The `page.goto` to the login page throws. -/
  gotoLoginThrows : Bool
  /-- `page.url().includes('/login')` after navigating to the login page. -/
  urlHasLogin : Bool
  /-- `isLoggedIn()` result in the redirected-away-from-login branch. -/
  redirectLoggedIn : Bool
  /-- The repeated `page.goto` to the login page throws. -/
  gotoLogin2Throws : Bool
  /-- `emailInput.waitFor({ state: 'visible' })` succeeds. -/
  emailInputVisible : Bool
  /-- `isLoggedIn()` result in the login-form-not-found catch branch. -/
  lateLoggedIn : Bool
  /-- `loginPage.login(email, password)` throws. -/
  loginThrows : Bool
  /-- The post-login `page.goto` back to the home page throws. -/
  gotoHome2Throws : Bool
  /-- Final `isLoggedIn()` verification result. -/
  finalLoggedIn : Bool
deriving DecidableEq

/-- Tail of `createAuthenticatedSession` from `loginPage.login` to the
final verification and snapshot write (source lines 222-240 of the
`SessionManager` document). -/
def uiAfterForm (e : UIEnv) : Except String Unit × List Event :=
  if e.loginThrows then
    (.error "login threw", [.uiLogin false])
  else if e.gotoHome2Throws then
    (.error "goto home failed", [.uiLogin true])
  else if e.finalLoggedIn then
    (.ok (), [.uiLogin true, .checkLoggedIn true, .writeSnapshot])
  else
    (.error "Login failed - user not authenticated.",
      [.uiLogin true, .checkLoggedIn false])

/-- `createAuthenticatedSession` from the `emailInput.waitFor` wait (with
its catch branch, which re-checks `isLoggedIn` and either saves the
snapshot or throws `Login form not found`) onwards. -/
def uiFromEmailWait (e : UIEnv) : Except String Unit × List Event :=
  if e.emailInputVisible then
    uiAfterForm e
  else if e.lateLoggedIn then
    (.ok (), [.checkLoggedIn true, .writeSnapshot])
  else
    (.error "Login form not found.", [.checkLoggedIn false])

/-- Body of `createAuthenticatedSession` (inside the `try`): navigate
home, short-circuit if already logged in, navigate to the login page,
re-check on redirect, wait for the form, log in, verify, and only then
write the snapshot. -/
def uiBody (e : UIEnv) : Except String Unit × List Event :=
  if e.gotoHomeThrows then
    (.error "goto home failed", [])
  else if e.alreadyLoggedIn then
    (.ok (), [.checkLoggedIn true, .writeSnapshot])
  else if e.gotoLoginThrows then
    (.error "goto login failed", [.checkLoggedIn false])
  else if !e.urlHasLogin then
    if e.redirectLoggedIn then
      (.ok (), [.checkLoggedIn false, .checkLoggedIn true, .writeSnapshot])
    else if e.gotoLogin2Throws then
      (.error "goto login failed", [.checkLoggedIn false, .checkLoggedIn false])
    else
      let r := uiFromEmailWait e
      (r.1, [Event.checkLoggedIn false, Event.checkLoggedIn false] ++ r.2)
  else
    let r := uiFromEmailWait e
    (r.1, Event.checkLoggedIn false :: r.2)

/-- `SessionManager.createAuthenticatedSession`: opens one page, runs the
body, and closes the page in the `finally`. The credentials argument only
flows into the `loginPage.login` call, whose outcome the environment
supplies, so it does not appear as a parameter of the model. -/
def createAuthenticatedSession (e : UIEnv) : Except String Unit × List Event :=
  let r := uiBody e
  (r.1, Event.openPage 0 :: r.2 ++ [Event.closePage 0])

/-! ## API-driven establisher
(`SessionManager.createAuthenticatedSessionViaAPI`) -/

/-- Outcomes of the suspension points of
`createAuthenticatedSessionViaAPI`, in source order. -/
structure APIEnv where
  /-- `apiHelper.login(credentials)` throws. -/
  loginThrows : Bool
  /-- `apiHelper.getAuthToken()` returns a non-null token. -/
  tokenPresent : Bool
  /-- `page.goto` to the home page throws. -/
  gotoThrows : Bool
  /-- The `page.evaluate` storage injection throws. -/
  injectThrows : Bool
  /-- `page.reload()` (or the following `waitForLoadState`) throws. -/
  reloadThrows : Bool
deriving DecidableEq

/-- `SessionManager.createAuthenticatedSessionViaAPI`: login via the API,
check the token, then open a page (id 0), inject the token and user into
browser storage, reload, and write the snapshot; the page is closed in
the `finally`. Note the body never calls `isLoggedIn`. -/
def createAuthenticatedSessionViaAPI (e : APIEnv) : Except String Unit × List Event :=
  if e.loginThrows then
    (.error "api login failed", [.apiLogin false])
  else if !e.tokenPresent then
    (.error "Failed to obtain authentication token", [.apiLogin true])
  else
    let body : Except String Unit × List Event :=
      if e.gotoThrows then (.error "goto failed", [])
      else if e.injectThrows then (.error "evaluate failed", [])
      else if e.reloadThrows then (.error "reload failed", [])
      else (.ok (), [.writeSnapshot])
    (body.1, [Event.apiLogin true, Event.openPage 0] ++ body.2 ++ [Event.closePage 0])

/-! ## Bootstrap (`bootstrapStorageState` in `authFixture.ts`)

`bootstrapStorageState` opens context 0, runs the configured establisher
in a `try`; on failure, when the API strategy was configured, it closes
context 0, opens context 1 and runs the UI establisher once as fallback;
otherwise it rethrows. The `finally` closes whichever context the local
variable currently holds. The establishers' outcomes are abstracted to
booleans here (their internals are modelled above); at most one UI call
happens per run, so a single boolean `uiOk` covers both the primary and
the fallback position. -/

/-- Configuration and establisher outcomes for one `bootstrapStorageState`
run. `useApi` is `useApiBootstrap = !isCI && !skipApiBootstrap`. -/
structure BootEnv where
  useApi : Bool
  /-- `createAuthenticatedSessionViaAPI` succeeds (when attempted). -/
  apiOk : Bool
  /-- `createAuthenticatedSession` succeeds (when attempted). -/
  uiOk : Bool
deriving DecidableEq

/-- `bootstrapStorageState`: try the configured establisher on context 0;
on API failure fall back once to the UI establisher on a fresh context 1;
on UI failure rethrow; always close the current context in the
`finally`. -/
def bootstrapStorageState (e : BootEnv) : Except String Unit × List Event :=
  if e.useApi then
    if e.apiOk then
      (.ok (), [.openContext 0, .establishAPI true, .closeContext 0])
    else
      -- catch branch: close context 0, open context 1, UI fallback;
      -- the finally then closes context 1 on success and on rethrow.
      if e.uiOk then
        (.ok (), [.openContext 0, .establishAPI false, .closeContext 0,
                  .openContext 1, .establishUI true, .closeContext 1])
      else
        (.error "ui establish failed",
          [.openContext 0, .establishAPI false, .closeContext 0,
           .openContext 1, .establishUI false, .closeContext 1])
  else
    if e.uiOk then
      (.ok (), [.openContext 0, .establishUI true, .closeContext 0])
    else
      -- catch branch rethrows (no API fallback); finally closes context 0.
      (.error "ui establish failed",
        [.openContext 0, .establishUI false, .closeContext 0])

/-! ## `ensureStorageState` and `verifyAuthentication`
(`authenticatedPage` fixture in `authFixture.ts`)

The snapshot side of the cache is threaded as a boolean
(`storageStateExists`). A successful bootstrap ends in a snapshot write,
so it sets the flag; a failed bootstrap throws before writing. -/

/-- `ensureStorageState`: bootstrap only when the snapshot file is
missing or a refresh is forced (deleting the snapshot first in the forced
case). Returns the result, the new snapshot-exists flag, and the trace.
`bootOk` abstracts the outcome of the inner `bootstrapStorageState`
call. -/
def ensureStorageState (forceRefresh snapExists bootOk : Bool) :
    Except String Unit × Bool × List Event :=
  if !snapExists || forceRefresh then
    let delEvents : List Event := if forceRefresh then [.deleteSnapshot] else []
    if bootOk then
      (.ok (), true, delEvents ++ [Event.bootstrapCall true])
    else
      (.error "bootstrap failed", false, delEvents ++ [Event.bootstrapCall false])
  else
    (.ok (), snapExists, [])

/-- `maxAttempts` in `verifyAuthentication`. -/
def maxAttempts : Nat := 2

/-- Outcomes for one `verifyAuthentication` run: the `isLoggedIn` result
and the bootstrap outcome of each of the (at most two) loop iterations,
plus the `REFRESH_STORAGE_STATE` flag read inside `ensureStorageState`. -/
structure VerifyEnv where
  check1 : Bool
  check2 : Bool
  boot1Ok : Bool
  boot2Ok : Bool
  forceRefresh : Bool
deriving DecidableEq

/-- `isLoggedIn` result of loop attempt `n` (attempts are numbered from 1
as in the source). -/
def checkAt (e : VerifyEnv) : Nat → Bool
  | 1 => e.check1
  | 2 => e.check2
  | _ => false

/-- Bootstrap outcome of the `ensureStorageState` call made after a
failed attempt `n`. -/
def bootOkAt (e : VerifyEnv) : Nat → Bool
  | 1 => e.boot1Ok
  | 2 => e.boot2Ok
  | _ => false

/-- The `for attempt = 1..maxAttempts` loop of `verifyAuthentication`:
navigate home, check `isLoggedIn`; on success return; on failure close
the context, delete the snapshot, re-bootstrap via `ensureStorageState`,
and recreate the context, then iterate; after the loop throw the
descriptive verification error. `fuel` bounds the recursion and is
instantiated at `maxAttempts + 1`, enough to walk every attempt. -/
def verifyLoop (e : VerifyEnv) : Nat → Nat → Except String Unit × List Event
  | 0, _ =>
    (.error "Failed to verify authenticated session after refreshing storage state.", [])
  | fuel + 1, attempt =>
    if attempt ≤ maxAttempts then
      if checkAt e attempt then
        (.ok (), [.checkLoggedIn true])
      else
        -- context.close(); SessionManager.deleteStorageState(); ensureStorageState().
        -- The delete just happened, so ensureStorageState sees no snapshot.
        let res := ensureStorageState e.forceRefresh false (bootOkAt e attempt)
        let pre := [Event.checkLoggedIn false, Event.deleteSnapshot] ++ res.2.2
        match res.1 with
        | .error m => (.error m, pre)
        | .ok _ =>
          let rest := verifyLoop e fuel (attempt + 1)
          (rest.1, pre ++ rest.2)
    else
      (.error "Failed to verify authenticated session after refreshing storage state.", [])

/-- `verifyAuthentication`: run the bounded validation loop starting at
attempt 1. -/
def verifyAuthentication (e : VerifyEnv) : Except String Unit × List Event :=
  verifyLoop e (maxAttempts + 1) 1

/-! ## Fixed fallback credentials (`TEST_CREDENTIALS` in
`src/utils/constants.ts`)

`VALID_EMAIL = process.env.TEST_EMAIL || 'nuruddinkawsar1995@gmail.com'`
and likewise for the password: the environment value is used when set and
truthy (non-empty), else the hardcoded literal. A fallback pair therefore
always exists. -/

/-- JavaScript `a || b` for an optional environment string. -/
def envOrDefault (envVal : Option String) (dflt : String) : String :=
  match envVal with
  | some s => if s ≠ "" then s else dflt
  | none => dflt

/-- `TEST_CREDENTIALS.VALID_EMAIL`. -/
def validEmail (envEmail : Option String) : String :=
  envOrDefault envEmail "nuruddinkawsar1995@gmail.com"

/-- `TEST_CREDENTIALS.VALID_PASSWORD`. -/
def validPassword (envPassword : Option String) : String :=
  envOrDefault envPassword "1234kawsar@"

/-- The fixed credential pair built from `TEST_CREDENTIALS`. -/
def fixedPair (envEmail envPassword : Option String) : UserCredentials :=
  ⟨validEmail envEmail, validPassword envPassword⟩

/-! ## Credential source (`testCredentials` fixture in `authFixture.ts`) -/

/-- `maxSignupRetries` in the `testCredentials` fixture. -/
def maxSignupRetries : Nat := 3

/-- The `while (!signupSuccess && signupRetries < maxSignupRetries)` loop
(happy path for page lifecycle: the page is never externally closed, so
the recreate-context branches are not taken). `ok.getD retries false`
says whether the signup submission at the current retry count succeeds.
On a failure with retries remaining, the loop backs off
`2000 * signupRetries` ms (after the increment: 2000 then 4000); on the
last failure it leaves `signupSuccess` false so the caller falls back to
the fixed pair. Returns the success flag and the events. `fuel` bounds
the recursion and starts at `maxSignupRetries`. -/
def signupWhile (ok : List Bool) : Nat → Nat → Bool × List Event
  | 0, _ => (false, [])
  | fuel + 1, retries =>
    if retries < maxSignupRetries then
      if ok.getD retries false then
        (true, [.signup true])
      else
        let retries' := retries + 1
        if retries' < maxSignupRetries then
          let rest := signupWhile ok fuel retries'
          (rest.1, Event.signup false :: Event.backoff (2000 * retries') :: rest.2)
        else
          -- retries exhausted: warn and fall back (caller substitutes the
          -- fixed pair); no further backoff.
          (false, [Event.signup false])
    else
      (false, [])

/-- Flags and signup outcomes for one `testCredentials` run. -/
structure CredEnv where
  /-- `process.env.FORCE_NEW_USER === 'true'`. -/
  forceNewUser : Bool
  /-- `process.env.USE_EXISTING_CREDENTIALS === 'true'`. -/
  useExistingFlag : Bool
  /-- Whether the first signup submission succeeds. -/
  signup1 : Bool
  /-- Whether the second signup submission succeeds. -/
  signup2 : Bool
  /-- Whether the third signup submission succeeds. -/
  signup3 : Bool
deriving DecidableEq

/-- The `testCredentials` fixture: reuse stored credentials unless a new
user is forced; else use the fixed pair when `USE_EXISTING_CREDENTIALS`
is set; else generate a fresh identity (`generated`), run the signup
retry loop, fall back to the fixed pair on exhaustion, and in every
generated branch persist the resulting pair with
`SessionManager.saveCredentials` before yielding it. Returns the
credentials handed to `use` and the event trace. -/
def testCredentials (stored : Option UserCredentials)
    (fixed generated : UserCredentials) (e : CredEnv) :
    UserCredentials × List Event :=
  match stored, e.forceNewUser with
  | some c, false => (c, [])
  | _, _ =>
    if e.useExistingFlag then
      (fixed, [])
    else
      let run := signupWhile [e.signup1, e.signup2, e.signup3] maxSignupRetries 0
      let creds := if run.1 then generated else fixed
      (creds, run.2 ++ [Event.saveCreds creds.email creds.password])

end Conduit

deriving instance DecidableEq for Except

namespace Conduit

/-! ## Theorems -/

/-- C2: the logged-in validator returns `true` if and only if at least
one authenticated-only marker (profile link, settings link, new-article
link) is visible and the anonymous-only sign-in link is not visible, and
returns `false` for every other combination of the four visibilities. -/
theorem isLoggedIn_iff :
    ∀ hasProfile hasSettings hasNewArticle hasSignIn : Bool,
      isLoggedIn hasProfile hasSettings hasNewArticle hasSignIn = true ↔
        ((hasProfile = true ∨ hasSettings = true ∨ hasNewArticle = true) ∧
          hasSignIn = false) := by
  decide

/-- Witness for `isLoggedIn_iff` at a concrete marker combination. -/
theorem isLoggedIn_iff_witness :
    isLoggedIn true false false false = true :=
  (isLoggedIn_iff true false false false).mpr ⟨Or.inl rfl, rfl⟩

/-- C8 counterexample: the round-trip is not the identity on every pair.
A pair with an empty email is saved with both fields present, but the
read-back truthiness test `parsed.email && parsed.password` rejects the
empty string, so the read returns `null` instead of the saved pair. -/
theorem saveCredentials_roundtrip_cex :
    getStoredCredentials (saveCredentials ⟨"", "pw"⟩) = none ∧
      getStoredCredentials (saveCredentials ⟨"", "pw"⟩) ≠
        some (⟨"", "pw"⟩ : UserCredentials) := by
  exact ⟨rfl, fun h => Option.noConfusion h⟩

/-- C8 (amended): for every credential pair whose email and password are
both non-empty, saving with `SessionManager.saveCredentials` and reading
with `SessionManager.getStoredCredentials` returns exactly the same email
and password. -/
theorem saveCredentials_roundtrip (c : UserCredentials)
    (he : c.email ≠ "") (hp : c.password ≠ "") :
    getStoredCredentials (saveCredentials c) = some c := by
  cases c with
  | mk email password =>
    simp_all [getStoredCredentials, saveCredentials, truthyField]

/-- Witness for `saveCredentials_roundtrip` at a concrete pair. -/
theorem saveCredentials_roundtrip_witness :
    getStoredCredentials (saveCredentials ⟨"a@b.c", "pw"⟩) =
      some (⟨"a@b.c", "pw"⟩ : UserCredentials) :=
  saveCredentials_roundtrip ⟨"a@b.c", "pw"⟩ (by decide) (by decide)

/-- C10: `getStoredCredentials` is total over all cache-file states: it
returns `none` when the file is absent, unreadable, or malformed, and
when either the email or the password field is missing; and whenever it
returns a record, the file held both fields with exactly the returned
values. (In the source every exception is caught and turned into
`null`, which is why the model needs no error case.) -/
theorem getStoredCredentials_total :
    getStoredCredentials CredFile.absent = none ∧
    getStoredCredentials CredFile.unreadable = none ∧
    getStoredCredentials CredFile.malformed = none ∧
    (∀ p, getStoredCredentials (CredFile.record none p) = none) ∧
    (∀ e, getStoredCredentials (CredFile.record e none) = none) ∧
    (∀ f c, getStoredCredentials f = some c →
      f = CredFile.record (some c.email) (some c.password)) := by
  refine ⟨rfl, rfl, rfl, ?_, ?_, ?_⟩
  · intro p
    simp [getStoredCredentials, truthyField]
  · intro e
    cases e <;> simp [getStoredCredentials, truthyField]
  · intro f c h
    cases f with
    | absent => simp [getStoredCredentials] at h
    | unreadable => simp [getStoredCredentials] at h
    | malformed => simp [getStoredCredentials] at h
    | record emailField passwordField =>
      cases emailField with
      | none => simp [getStoredCredentials, truthyField] at h
      | some e =>
        cases passwordField with
        | none => simp [getStoredCredentials, truthyField] at h
        | some p =>
          simp only [getStoredCredentials, Option.getD_some] at h
          split at h
          · injection h with h'
            subst h'
            rfl
          · exact Option.noConfusion h

/-- Witness for `getStoredCredentials_total`: the only-if direction at a
concrete file state holding both fields. -/
theorem getStoredCredentials_total_witness :
    CredFile.record (some "a@b.c") (some "pw") =
      CredFile.record (some "a@b.c") (some "pw") :=
  getStoredCredentials_total.2.2.2.2.2
    (CredFile.record (some "a@b.c") (some "pw")) ⟨"a@b.c", "pw"⟩ (by rfl)

/-- C1 counterexample: the API-driven establisher, on a fully successful
run, writes the snapshot to the cache file without ever invoking the
logged-in check, so the write is not guarded by a passing check. This
refutes the claim for the "either strategy" universal. -/
theorem apiEstablisher_writes_without_check :
    Event.writeSnapshot ∈
        (createAuthenticatedSessionViaAPI ⟨false, true, false, false, false⟩).2 ∧
      Event.checkLoggedIn true ∉
        (createAuthenticatedSessionViaAPI ⟨false, true, false, false, false⟩).2 ∧
      Event.checkLoggedIn false ∉
        (createAuthenticatedSessionViaAPI ⟨false, true, false, false, false⟩).2 ∧
      writeGuarded (createAuthenticatedSessionViaAPI ⟨false, true, false, false, false⟩).2 = false ∧
      (createAuthenticatedSessionViaAPI ⟨false, true, false, false, false⟩).1 = .ok () := by
  decide

/-- C1 (amended): the UI-driven establisher writes the snapshot only
immediately after a logged-in check returning true, and when no check
passes it raises an error and writes nothing; the API-driven establisher
never runs the logged-in check, and writes the snapshot exactly when the
API login succeeded, a token was present, and the subsequent page
operations succeeded. -/
theorem establishers_write_discipline :
    (∀ e : UIEnv, writeGuarded (createAuthenticatedSession e).2 = true) ∧
    (∀ e : UIEnv, Event.checkLoggedIn true ∉ (createAuthenticatedSession e).2 →
        (createAuthenticatedSession e).1.isOk = false ∧
          Event.writeSnapshot ∉ (createAuthenticatedSession e).2) ∧
    (∀ e : APIEnv, Event.checkLoggedIn true ∉ (createAuthenticatedSessionViaAPI e).2 ∧
        Event.checkLoggedIn false ∉ (createAuthenticatedSessionViaAPI e).2) ∧
    (∀ e : APIEnv, Event.writeSnapshot ∈ (createAuthenticatedSessionViaAPI e).2 ↔
        (e.loginThrows = false ∧ e.tokenPresent = true ∧ e.gotoThrows = false ∧
          e.injectThrows = false ∧ e.reloadThrows = false)) := by
  refine ⟨?_, ?_, ?_, ?_⟩
  · intro e
    obtain ⟨a, b, c, d, f, g, h, i, j, k, l⟩ := e
    revert a b c d f g h i j k l
    decide
  · intro e
    obtain ⟨a, b, c, d, f, g, h, i, j, k, l⟩ := e
    revert a b c d f g h i j k l
    decide
  · intro e
    obtain ⟨a, b, c, d, f⟩ := e
    revert a b c d f
    decide
  · intro e
    obtain ⟨a, b, c, d, f⟩ := e
    revert a b c d f
    decide

/-- Witness for `establishers_write_discipline`: the no-passing-check
clause at an environment whose first navigation throws. -/
theorem establishers_write_discipline_witness :
    (createAuthenticatedSession
        ⟨true, false, false, false, false, false, false, false, false, false, false⟩).1.isOk = false ∧
      Event.writeSnapshot ∉
        (createAuthenticatedSession
          ⟨true, false, false, false, false, false, false, false, false, false, false⟩).2 :=
  establishers_write_discipline.2.1
    ⟨true, false, false, false, false, false, false, false, false, false, false⟩
    (by decide)

/-- C3: when the API strategy is configured and its establishment throws,
`bootstrapStorageState` runs the UI establisher exactly once, after the
API attempt, and the overall outcome is that of the UI attempt; when the
UI strategy is the one selected, no API establishment is ever attempted
and a UI failure propagates as the overall failure. -/
theorem bootstrap_fallback_order :
    (∀ e : BootEnv, e.useApi = true → e.apiOk = false →
        countEstablishUI (bootstrapStorageState e).2 = 1 ∧
          countEstablishAPI (bootstrapStorageState e).2 = 1 ∧
          (bootstrapStorageState e).2 =
            [Event.openContext 0, Event.establishAPI false, Event.closeContext 0,
              Event.openContext 1, Event.establishUI e.uiOk, Event.closeContext 1] ∧
          (bootstrapStorageState e).1.isOk = e.uiOk) ∧
    (∀ e : BootEnv, e.useApi = false →
        countEstablishAPI (bootstrapStorageState e).2 = 0 ∧
          countEstablishUI (bootstrapStorageState e).2 = 1 ∧
          (bootstrapStorageState e).1.isOk = e.uiOk) := by
  constructor
  · intro e
    obtain ⟨a, b, c⟩ := e
    revert a b c
    decide
  · intro e
    obtain ⟨a, b, c⟩ := e
    revert a b c
    decide

/-- Witness for `bootstrap_fallback_order`: the fallback clause at a run
where the API attempt fails and the UI fallback also fails. -/
theorem bootstrap_fallback_order_witness :
    countEstablishUI (bootstrapStorageState ⟨true, false, false⟩).2 = 1 ∧
      countEstablishAPI (bootstrapStorageState ⟨true, false, false⟩).2 = 1 ∧
      (bootstrapStorageState ⟨true, false, false⟩).2 =
        [Event.openContext 0, Event.establishAPI false, Event.closeContext 0,
          Event.openContext 1, Event.establishUI false, Event.closeContext 1] ∧
      (bootstrapStorageState ⟨true, false, false⟩).1.isOk = false :=
  bootstrap_fallback_order.1 ⟨true, false, false⟩ rfl rfl

/-- C9: for every environment, every browser context opened by
`bootstrapStorageState` is closed before it returns, and the page opened
by each establisher is closed before the establisher returns, on success
and on every exception path. -/
theorem bootstrap_resources_closed :
    (∀ e : BootEnv, contextsClosed (bootstrapStorageState e).2 = true) ∧
    (∀ e : UIEnv, pagesClosed (createAuthenticatedSession e).2 = true) ∧
    (∀ e : APIEnv, pagesClosed (createAuthenticatedSessionViaAPI e).2 = true) := by
  refine ⟨?_, ?_, ?_⟩
  · intro e
    obtain ⟨a, b, c⟩ := e
    revert a b c
    decide
  · intro e
    obtain ⟨a, b, c, d, f, g, h, i, j, k, l⟩ := e
    revert a b c d f g h i j k l
    decide
  · intro e
    obtain ⟨a, b, c, d, f⟩ := e
    revert a b c d f
    decide

/-- C4: when the snapshot never passes validation and the re-bootstraps
themselves succeed, the verification loop makes exactly two validation
attempts, each failure deleting the cached snapshot and re-bootstrapping
(exactly two bootstrap calls), and then raises the descriptive
session-verification error; the loop never returns success unless some
validation attempt passed, and it never makes more than `maxAttempts`
validation attempts. -/
theorem verifyAuthentication_retry_budget :
    (∀ e : VerifyEnv, e.check1 = false → e.check2 = false →
        e.boot1Ok = true → e.boot2Ok = true →
        (verifyAuthentication e).1 =
            .error "Failed to verify authenticated session after refreshing storage state." ∧
          countBootstraps (verifyAuthentication e).2 = 2 ∧
          countChecks (verifyAuthentication e).2 = 2 ∧
          (e.forceRefresh = false →
            (verifyAuthentication e).2 =
              [Event.checkLoggedIn false, Event.deleteSnapshot, Event.bootstrapCall true,
                Event.checkLoggedIn false, Event.deleteSnapshot, Event.bootstrapCall true])) ∧
    (∀ e : VerifyEnv, (verifyAuthentication e).1.isOk = true →
        Event.checkLoggedIn true ∈ (verifyAuthentication e).2) ∧
    (∀ e : VerifyEnv, countChecks (verifyAuthentication e).2 ≤ maxAttempts) := by
  refine ⟨?_, ?_, ?_⟩
  · intro e
    obtain ⟨a, b, c, d, f⟩ := e
    revert a b c d f
    decide
  · intro e
    obtain ⟨a, b, c, d, f⟩ := e
    revert a b c d f
    decide
  · intro e
    obtain ⟨a, b, c, d, f⟩ := e
    revert a b c d f
    decide

/-- Witness for `verifyAuthentication_retry_budget`: the all-failures
clause at a run with no forced refresh. -/
theorem verifyAuthentication_retry_budget_witness :
    (verifyAuthentication ⟨false, false, true, true, false⟩).1 =
        .error "Failed to verify authenticated session after refreshing storage state." ∧
      countBootstraps (verifyAuthentication ⟨false, false, true, true, false⟩).2 = 2 ∧
      countChecks (verifyAuthentication ⟨false, false, true, true, false⟩).2 = 2 ∧
      (false = false →
        (verifyAuthentication ⟨false, false, true, true, false⟩).2 =
          [Event.checkLoggedIn false, Event.deleteSnapshot, Event.bootstrapCall true,
            Event.checkLoggedIn false, Event.deleteSnapshot, Event.bootstrapCall true]) :=
  verifyAuthentication_retry_budget.1 ⟨false, false, true, true, false⟩ rfl rfl rfl rfl

/-- C7: with an existing snapshot and no forced refresh,
`ensureStorageState` is a no-op (no bootstrap, hence no establisher, no
login call), and stays a no-op on repeated invocation; and with cached
credentials and no force-new-user flag, the credential source returns the
cached record with an empty trace (no signup, no credential write). -/
theorem cache_reuse_idempotent :
    (∀ bootOk : Bool, ensureStorageState false true bootOk = (.ok (), true, [])) ∧
    (∀ bootOk bootOk' : Bool,
        ensureStorageState false (ensureStorageState false true bootOk).2.1 bootOk' =
          (.ok (), true, [])) ∧
    (∀ (c fixed generated : UserCredentials) (e : CredEnv), e.forceNewUser = false →
        testCredentials (some c) fixed generated e = (c, [])) := by
  refine ⟨?_, ?_, ?_⟩
  · intro bootOk
    rfl
  · intro bootOk bootOk'
    rfl
  · intro c fixed generated e hf
    simp [testCredentials, hf]

/-- Witness for `cache_reuse_idempotent`: cached credentials are reused
verbatim when no new user is forced. -/
theorem cache_reuse_idempotent_witness :
    testCredentials (some ⟨"a@b.c", "pw"⟩) ⟨"f@g.h", "fp"⟩ ⟨"g@h.i", "gp"⟩
        ⟨false, false, true, true, true⟩ =
      ((⟨"a@b.c", "pw"⟩ : UserCredentials), []) :=
  cache_reuse_idempotent.2.2 ⟨"a@b.c", "pw"⟩ ⟨"f@g.h", "fp"⟩ ⟨"g@h.i", "gp"⟩
    ⟨false, false, true, true, true⟩ rfl

/-- C5: credential resolution follows the stated priority order: a cached
record is reused when present and no new user is forced; otherwise the
fixed pair is used when the use-existing flag is set; otherwise a fresh
identity is signed up with up to three attempts and increasing backoff
(2000 ms then 4000 ms), the fixed pair is substituted on exhaustion, and
in the generated branch the resulting pair is persisted
(`saveCreds`) as the last step before it is returned. -/
theorem credential_priority :
    (∀ (c fixed generated : UserCredentials) (e : CredEnv), e.forceNewUser = false →
        testCredentials (some c) fixed generated e = (c, [])) ∧
    (∀ (fixed generated : UserCredentials) (e : CredEnv), e.useExistingFlag = true →
        testCredentials none fixed generated e = (fixed, [])) ∧
    (∀ (c fixed generated : UserCredentials) (e : CredEnv),
        e.forceNewUser = true → e.useExistingFlag = true →
        testCredentials (some c) fixed generated e = (fixed, [])) ∧
    (∀ (fixed generated : UserCredentials) (e : CredEnv),
        e.useExistingFlag = false → e.signup1 = true →
        testCredentials none fixed generated e =
          (generated,
            [Event.signup true,
              Event.saveCreds generated.email generated.password])) ∧
    (∀ (fixed generated : UserCredentials) (e : CredEnv),
        e.useExistingFlag = false → e.signup1 = false → e.signup2 = true →
        testCredentials none fixed generated e =
          (generated,
            [Event.signup false, Event.backoff 2000, Event.signup true,
              Event.saveCreds generated.email generated.password])) ∧
    (∀ (fixed generated : UserCredentials) (e : CredEnv),
        e.useExistingFlag = false → e.signup1 = false → e.signup2 = false →
        e.signup3 = true →
        testCredentials none fixed generated e =
          (generated,
            [Event.signup false, Event.backoff 2000, Event.signup false,
              Event.backoff 4000, Event.signup true,
              Event.saveCreds generated.email generated.password])) ∧
    (∀ (fixed generated : UserCredentials) (e : CredEnv),
        e.useExistingFlag = false → e.signup1 = false → e.signup2 = false →
        e.signup3 = false →
        testCredentials none fixed generated e =
          (fixed,
            [Event.signup false, Event.backoff 2000, Event.signup false,
              Event.backoff 4000, Event.signup false,
              Event.saveCreds fixed.email fixed.password])) := by
  refine ⟨?_, ?_, ?_, ?_, ?_, ?_, ?_⟩
  · intro c fixed generated e hf
    simp [testCredentials, hf]
  · intro fixed generated e hu
    simp [testCredentials, hu]
  · intro c fixed generated e hf hu
    simp [testCredentials, hf, hu]
  · intro fixed generated e hu h1
    simp [testCredentials, hu, signupWhile, maxSignupRetries, h1]
  · intro fixed generated e hu h1 h2
    simp [testCredentials, hu, signupWhile, maxSignupRetries, h1, h2]
  · intro fixed generated e hu h1 h2 h3
    simp [testCredentials, hu, signupWhile, maxSignupRetries, h1, h2, h3]
  · intro fixed generated e hu h1 h2 h3
    simp [testCredentials, hu, signupWhile, maxSignupRetries, h1, h2, h3]

/-- Witness for `credential_priority`: the third-attempt success branch
at concrete credentials. -/
theorem credential_priority_witness :
    testCredentials none ⟨"f@g.h", "fp"⟩ ⟨"g@h.i", "gp"⟩
        ⟨false, false, false, false, true⟩ =
      ((⟨"g@h.i", "gp"⟩ : UserCredentials),
        [Event.signup false, Event.backoff 2000, Event.signup false,
          Event.backoff 4000, Event.signup true,
          Event.saveCreds "g@h.i" "gp"]) :=
  credential_priority.2.2.2.2.2.1 ⟨"f@g.h", "fp"⟩ ⟨"g@h.i", "gp"⟩
    ⟨false, false, false, false, true⟩ rfl rfl rfl rfl

/-- C6 counterexample: with neither `TEST_EMAIL` nor `TEST_PASSWORD`
configured in the environment and every signup attempt failing, the run
does not raise: it falls back to the hardcoded default pair, writes it to
the credentials file (the `saveCreds` event), and returns it. -/
theorem signup_exhaustion_no_failure :
    testCredentials none (fixedPair none none) ⟨"x@y.z", "pw123"⟩
        ⟨false, false, false, false, false⟩ =
      ((⟨"nuruddinkawsar1995@gmail.com", "1234kawsar@"⟩ : UserCredentials),
        [Event.signup false, Event.backoff 2000, Event.signup false,
          Event.backoff 4000, Event.signup false,
          Event.saveCreds "nuruddinkawsar1995@gmail.com" "1234kawsar@"]) := by
  rfl

/-- C6 (amended): a fallback pair is always configured — `TEST_CREDENTIALS`
falls back to hardcoded literals when the environment variables are unset
— so when signup fails on all three attempts the credential source never
raises: it substitutes the fixed pair, writes it to the credentials file,
and returns it. -/
theorem signup_exhaustion_falls_back (envEmail envPassword : Option String)
    (generated : UserCredentials) (e : CredEnv)
    (hu : e.useExistingFlag = false) (h1 : e.signup1 = false)
    (h2 : e.signup2 = false) (h3 : e.signup3 = false) :
    testCredentials none (fixedPair envEmail envPassword) generated e =
      (fixedPair envEmail envPassword,
        [Event.signup false, Event.backoff 2000, Event.signup false,
          Event.backoff 4000, Event.signup false,
          Event.saveCreds (validEmail envEmail) (validPassword envPassword)]) := by
  simp [testCredentials, hu, signupWhile, maxSignupRetries, h1, h2, h3, fixedPair]

/-- Witness for `signup_exhaustion_falls_back` at a concrete unset
environment. -/
theorem signup_exhaustion_falls_back_witness :
    testCredentials none (fixedPair none none) ⟨"e@f.g", "q"⟩
        ⟨true, false, false, false, false⟩ =
      (fixedPair none none,
        [Event.signup false, Event.backoff 2000, Event.signup false,
          Event.backoff 4000, Event.signup false,
          Event.saveCreds (validEmail none) (validPassword none)]) :=
  signup_exhaustion_falls_back none none ⟨"e@f.g", "q"⟩
    ⟨true, false, false, false, false⟩ rfl rfl rfl rfl

end Conduit
